import Mathlib

/-!
Verification of the core of `dicer_ugc` (video_mix_pipeline): the variant
task-matrix builder (`variant_matrix.py`), the cost ledger
(`cost_tracker.py`), the run-state data model and its serialization
(`models.py`), and the dispatch loop of the pipeline runner (`runner.py`).

Modelling conventions, used throughout:
- Python `float` monetary amounts are modelled as exact integer counts of
  micro-dollars (`ℤ`, 1 = $0.000001): every monetary constant in the source
  (rates, per-task costs, caps) is an exact multiple of $0.000001, and the
  modelled code paths only add amounts, multiply them by unit counts and
  compare them, so the representation is exact; `$x` in a comment means the
  integer `x * 10^6`.
- `datetime` values are modelled by their ISO strings; `isoformat` /
  `fromisoformat` are mutually inverse in the source, so both become the
  identity here.  `pathlib.Path` values are modelled by their string form;
  `Path(str(p)) == p` holds in the source for every constructed `Path`.
- Python `dict`s preserve insertion order, so they are modelled as
  association lists, with dict assignment replacing an existing key in
  place and appending a fresh key at the end.
- Log output (`log_info` / `log_warning` / `log_progress`) has no effect on
  the data and is not modelled; exception message strings built purely for
  display are likewise omitted where no property mentions them.
-/

/-! ## MD5 (RFC 1321), used by `_generate_task_id`

`hashlib.md5(content.encode()).hexdigest()[:12]` — we implement MD5 over
UTF-8 byte lists, with 32-bit words as `Nat` reduced mod `2^32`. -/

/-- Reduce to a 32-bit word. -/
def m32 (x : Nat) : Nat := x % 4294967296

/-- 32-bit left rotation. -/
def rotl32 (x s : Nat) : Nat := m32 ((x <<< s) ||| (x >>> (32 - s)))

/-- 32-bit bitwise complement. -/
def mnot (x : Nat) : Nat := x ^^^ 4294967295

/-- UTF-8 encoding of a single code point, as byte values. -/
def utf8EncodeCharNat (c : Nat) : List Nat :=
  if c < 128 then [c]
  else if c < 2048 then [192 ||| (c >>> 6), 128 ||| (c &&& 63)]
  else if c < 65536 then
    [224 ||| (c >>> 12), 128 ||| ((c >>> 6) &&& 63), 128 ||| (c &&& 63)]
  else
    [240 ||| (c >>> 18), 128 ||| ((c >>> 12) &&& 63),
     128 ||| ((c >>> 6) &&& 63), 128 ||| (c &&& 63)]

/-- UTF-8 bytes of a string (`str.encode()`). -/
def utf8Bytes (s : String) : List Nat :=
  s.data.foldr (fun c acc => utf8EncodeCharNat c.toNat ++ acc) []

/-- The 64 MD5 sine-derived constants. -/
def md5K : List Nat :=
  [0xd76aa478, 0xe8c7b756, 0x242070db, 0xc1bdceee,
   0xf57c0faf, 0x4787c62a, 0xa8304613, 0xfd469501,
   0x698098d8, 0x8b44f7af, 0xffff5bb1, 0x895cd7be,
   0x6b901122, 0xfd987193, 0xa679438e, 0x49b40821,
   0xf61e2562, 0xc040b340, 0x265e5a51, 0xe9b6c7aa,
   0xd62f105d, 0x02441453, 0xd8a1e681, 0xe7d3fbc8,
   0x21e1cde6, 0xc33707d6, 0xf4d50d87, 0x455a14ed,
   0xa9e3e905, 0xfcefa3f8, 0x676f02d9, 0x8d2a4c8a,
   0xfffa3942, 0x8771f681, 0x6d9d6122, 0xfde5380c,
   0xa4beea44, 0x4bdecfa9, 0xf6bb4b60, 0xbebfbc70,
   0x289b7ec6, 0xeaa127fa, 0xd4ef3085, 0x04881d05,
   0xd9d4d039, 0xe6db99e5, 0x1fa27cf8, 0xc4ac5665,
   0xf4292244, 0x432aff97, 0xab9423a7, 0xfc93a039,
   0x655b59c3, 0x8f0ccc92, 0xffeff47d, 0x85845dd1,
   0x6fa87e4f, 0xfe2ce6e0, 0xa3014314, 0x4e0811a1,
   0xf7537e82, 0xbd3af235, 0x2ad7d2bb, 0xeb86d391]

/-- The 64 MD5 per-round left-rotation amounts. -/
def md5S : List Nat :=
  [7, 12, 17, 22, 7, 12, 17, 22, 7, 12, 17, 22, 7, 12, 17, 22,
   5, 9, 14, 20, 5, 9, 14, 20, 5, 9, 14, 20, 5, 9, 14, 20,
   4, 11, 16, 23, 4, 11, 16, 23, 4, 11, 16, 23, 4, 11, 16, 23,
   6, 10, 15, 21, 6, 10, 15, 21, 6, 10, 15, 21, 6, 10, 15, 21]

/-- MD5 round function F/G/H/I, selected by the round index. -/
def md5F (i b c d : Nat) : Nat :=
  if i < 16 then (b &&& c) ||| (mnot b &&& d)
  else if i < 32 then (d &&& b) ||| (mnot d &&& c)
  else if i < 48 then b ^^^ c ^^^ d
  else c ^^^ (b ||| mnot d)

/-- MD5 message-word index for round `i`. -/
def md5G (i : Nat) : Nat :=
  if i < 16 then i
  else if i < 32 then (5 * i + 1) % 16
  else if i < 48 then (3 * i + 5) % 16
  else (7 * i) % 16

/-- One MD5 round on state `(A, B, C, D)` with message words `M`. -/
def md5Round (M : List Nat) (st : Nat × Nat × Nat × Nat) (i : Nat) :
    Nat × Nat × Nat × Nat :=
  let (A, B, C, D) := st
  let f := m32 (md5F i B C D + A + md5K.getD i 0 + M.getD (md5G i) 0)
  (D, m32 (B + rotl32 f (md5S.getD i 0)), B, C)

/-- Process one 64-byte chunk (given as 16 little-endian words). -/
def md5Chunk (st : Nat × Nat × Nat × Nat) (M : List Nat) :
    Nat × Nat × Nat × Nat :=
  let (a0, b0, c0, d0) := st
  let (A, B, C, D) := (List.range 64).foldl (md5Round M) (a0, b0, c0, d0)
  (m32 (a0 + A), m32 (b0 + B), m32 (c0 + C), m32 (d0 + D))

/-- Little-endian byte expansion: `n` bytes of `x`. -/
def leBytes (n x : Nat) : List Nat :=
  (List.range n).map (fun i => (x >>> (8 * i)) &&& 255)

/-- MD5 padding: append `0x80`, zero bytes to 56 mod 64, then the 64-bit
little-endian bit length. -/
def md5Pad (msg : List Nat) : List Nat :=
  let padLen := (119 - msg.length % 64) % 64
  msg ++ [128] ++ List.replicate padLen 0 ++
    leBytes 8 ((msg.length * 8) % 18446744073709551616)

/-- Group a byte list into little-endian 32-bit words. -/
def toLEWords : List Nat → List Nat
  | b0 :: b1 :: b2 :: b3 :: rest =>
      (b0 + 256 * b1 + 65536 * b2 + 16777216 * b3) :: toLEWords rest
  | _ => []

/-- Split a list into chunks of 64 elements (structural recursion on a
fuel argument so that the definition reduces inside the kernel; the fuel
`l.length` always suffices). -/
def chunksOf64Go : Nat → List α → List (List α)
  | 0, _ => []
  | _, [] => []
  | fuel + 1, l => l.take 64 :: chunksOf64Go fuel (l.drop 64)

/-- Split a list into chunks of 64 elements. -/
def chunksOf64 (l : List α) : List (List α) :=
  chunksOf64Go l.length l

/-- MD5 digest of a byte list, as 16 byte values. -/
def md5Bytes (msg : List Nat) : List Nat :=
  let chunks := chunksOf64 (md5Pad msg)
  let (a, b, c, d) :=
    chunks.foldl (fun st chunk => md5Chunk st (toLEWords chunk))
      (0x67452301, 0xefcdab89, 0x98badcfe, 0x10325476)
  leBytes 4 a ++ leBytes 4 b ++ leBytes 4 c ++ leBytes 4 d

/-- Lower-case hex digit. -/
def hexDigit (n : Nat) : Char :=
  if n < 10 then Char.ofNat (48 + n) else Char.ofNat (87 + n)

/-- Two-digit lower-case hex of a byte. -/
def byteHex (b : Nat) : List Char := [hexDigit (b / 16), hexDigit (b % 16)]

/-- `hashlib.md5(s.encode()).hexdigest()`. -/
def md5hex (s : String) : String :=
  String.mk (((md5Bytes (utf8Bytes s)).map byteHex).flatten)

/-! ## Data model (`models.py`) — enums, the actor and the task value -/

/-- `VariantType` (`models.py`): type of script variant. -/
inductive VariantType where
  | identical
  | modified
deriving DecidableEq, Repr

/-- `VariantType.value` — the `str` value of the enum member. -/
def VariantType.value : VariantType → String
  | .identical => "identical"
  | .modified => "modified"

/-- `TaskStatus` (`models.py`): status of a generation task. -/
inductive TaskStatus where
  | pending
  | in_progress
  | completed
  | failed
  | skipped
deriving DecidableEq, Repr

/-- `TaskStatus.value` — the `str` value of the enum member. -/
def TaskStatus.value : TaskStatus → String
  | .pending => "pending"
  | .in_progress => "in_progress"
  | .completed => "completed"
  | .failed => "failed"
  | .skipped => "skipped"

/-- `TaskStatus(s)` — enum lookup by value; raises (here `none`) on an
unknown string. -/
def TaskStatus.ofValue (s : String) : Option TaskStatus :=
  if s = "pending" then some .pending
  else if s = "in_progress" then some .in_progress
  else if s = "completed" then some .completed
  else if s = "failed" then some .failed
  else if s = "skipped" then some .skipped
  else none

/-- `Actor` (`models.py`): actor information. -/
structure Actor where
  name : String
  scene_id : String
  voice_id : Option String := none
  style : Option String := none
deriving DecidableEq, Repr

/-- A single-quote character, built from its code point. -/
def pyQuote : String := String.mk [Char.ofNat 39]

/-- Python `repr` of a plain string — quoted with single quotes.  (The
general `repr` escapes embedded quotes and backslashes; the actor fields
interpolated below never contain them.) -/
def pyStrRepr (s : String) : String := pyQuote ++ s ++ pyQuote

/-- Python `str`/`repr` of an `Actor`: the generated dataclass repr
`Actor(name=..., scene_id=..., voice_id=..., style=...)` with each field
shown by its own repr.  This is the text an f-string interpolates for an
`Actor` value (dataclasses define `__repr__`, and `__str__` falls back to
it). -/
def Actor.pyRepr (a : Actor) : String :=
  "Actor(name=" ++ pyStrRepr a.name ++
    ", scene_id=" ++ pyStrRepr a.scene_id ++
    ", voice_id=" ++
      (match a.voice_id with | none => "None" | some v => pyStrRepr v) ++
    ", style=" ++
      (match a.style with | none => "None" | some s => pyStrRepr s) ++ ")"

/-- `VariantTask` (`models.py`): a single video generation task.  The
fields are exactly the dataclass constructor parameters, in order (the
trailing `offer_metadata`, optional and always `None` on the modelled
paths, is omitted).  `actor_id` is NOT a constructor parameter — it is
the read-only backward-compatibility property modelled below.
`__post_init__`, which would regenerate an empty `task_id`, never runs on
the modelled paths (no construction with an empty id occurs) and is
omitted. -/
structure VariantTask where
  task_id : String
  actor : Actor
  variant_type : VariantType
  variant_num : Nat
  script_text : Option String := none
deriving DecidableEq, Repr

/-- The read-only `VariantTask.actor_id` property: the actor's name. -/
def VariantTask.actor_id (t : VariantTask) : String := t.actor.name

/-! ## Matrix builder (`variant_matrix.py`) -/

/-- `VariantConfig` (`config.py`): variant generation configuration. -/
structure VariantConfig where
  identical_script : Bool := true
  minor_script_variants : Nat := 3
deriving DecidableEq, Repr

/-- The fields of `PipelineConfig` (`config.py`) consumed by the matrix
builder and the runner.  `actors` holds `Actor` objects:
`PipelineConfig.validate_actors` converts every configured entry (name
string, dict or `Actor`) into an `Actor` — a bare name becomes
`Actor(name=item, scene_id="")` — before the builder ever sees the list.
`base_script` is the reference script text the builder loads once at
construction (`read_script_content`). -/
structure PipelineConfig where
  offer_id : String
  actors : List Actor
  variants : VariantConfig
  cost_cap : ℤ := 30000000
deriving DecidableEq, Repr

/-- `VariantMatrixBuilder._generate_task_id`:
`md5(f"{offer_id}_{actor_id}_{variant_type}_{variant_num}").hexdigest()[:12]`. -/
def generate_task_id (offer_id actor_id variant_type : String)
    (variant_num : Nat) : String :=
  (md5hex (offer_id ++ "_" ++ actor_id ++ "_" ++ variant_type ++ "_" ++
    toString variant_num)).take 12

/-- `VariantMatrixBuilder._generate_modified_script`: the placeholder
variation step — base script plus a variant marker. -/
def generate_modified_script (base_script actor_id : String)
    (variant_num : Nat) : String :=
  base_script ++ "\n\n[Variant " ++ toString variant_num ++ " for " ++
    actor_id ++ "]"

/-- Python exceptions surfaced by the modelled code. -/
inductive PyError where
  | typeError (msg : String)
deriving DecidableEq, Repr

/-- The constructor calls at variant_matrix.py lines 47-53 and 59-66:
`VariantTask(task_id=..., actor_id=..., variant_type=..., variant_num=...,
script_text=...)`.  `models.VariantTask` accepts no `actor_id` keyword —
`actor_id` is a read-only property, the required dataclass field is
`actor` and is never passed — so every such call raises `TypeError`
before any task object exists.  The parameters record the values the
source computes (and the keyword it passes them under) before the call
fails. -/
def VariantTask.initWithActorIdKw (task_id : String) (actor_id : Actor)
    (variant_type : VariantType) (variant_num : Nat)
    (script_text : String) : Except PyError VariantTask :=
  Except.error (PyError.typeError
    "VariantTask.__init__ got an unexpected keyword argument actor_id")

/-- The per-actor body of the `build_matrix` loop: emit the Identical
task (variant 0) iff `identical_script`, then the Modified tasks 1..N —
each a `VariantTask(..., actor_id=...)` construction that raises as
above.  The loop variable is named `actor_id` in the source but holds a
pydantic-validated `Actor`, so the id hash and the variant marker
interpolate the actor's dataclass repr, not its name. -/
def tasks_for_actor (config : PipelineConfig) (base_script : String)
    (actor_id : Actor) : Except PyError (List VariantTask) := do
  let identicalPart ←
    if config.variants.identical_script then do
      let task ← VariantTask.initWithActorIdKw
        (generate_task_id config.offer_id actor_id.pyRepr "identical" 0)
        actor_id VariantType.identical 0 base_script
      pure [task]
    else pure []
  let modifiedPart ←
    (List.range config.variants.minor_script_variants).mapM (fun k => do
      let script_text :=
        generate_modified_script base_script actor_id.pyRepr (k + 1)
      VariantTask.initWithActorIdKw
        (generate_task_id config.offer_id actor_id.pyRepr "modified" (k + 1))
        actor_id VariantType.modified (k + 1) script_text)
  pure (identicalPart ++ modifiedPart)

/-- `VariantMatrixBuilder.build_matrix`: for each actor in configuration
order, the Identical task (if enabled) followed by the Modified tasks.
Because each emission raises `TypeError` (see above), the function raises
on the first task it tries to build; it returns a list — the empty one —
only for a configuration that yields no tasks at all. -/
def build_matrix (config : PipelineConfig) (base_script : String) :
    Except PyError (List VariantTask) := do
  let blocks ← config.actors.mapM (tasks_for_actor config base_script)
  pure blocks.flatten

/-- `VariantMatrixBuilder.get_resume_tasks`: recompute the full matrix
and keep the tasks whose `task_id` is not among `completed_task_ids` —
the internal `build_matrix` call raises the same `TypeError` whenever the
matrix is nonempty. -/
def get_resume_tasks (config : PipelineConfig) (base_script : String)
    (completed_task_ids : List String) :
    Except PyError (List VariantTask) := do
  let all_tasks ← build_matrix config base_script
  pure (all_tasks.filter
    (fun task => !(completed_task_ids.contains task.task_id)))

/-! ## Cost ledger (`cost_tracker.py`) -/

/-- `Provider` (`cost_tracker.py`): supported providers. -/
inductive Provider where
  | elevenlabs
  | gemini
  | arcads
  | replicate
deriving DecidableEq, Repr

/-- `Provider.value` — the `str` value of the enum member. -/
def Provider.value : Provider → String
  | .elevenlabs => "elevenlabs"
  | .gemini => "gemini"
  | .arcads => "arcads"
  | .replicate => "replicate"

/-- `Provider(s)` — enum lookup by value; raises (here `none`) on an
unknown string. -/
def Provider.ofValue (s : String) : Option Provider :=
  if s = "elevenlabs" then some .elevenlabs
  else if s = "gemini" then some .gemini
  else if s = "arcads" then some .arcads
  else if s = "replicate" then some .replicate
  else none

/-- `CostTracker.PROVIDER_RATES`: the static provider/operation rate card. -/
def provider_rates : Provider → String → Option ℤ
  | .elevenlabs, "tts_per_character" => some 150
  | .gemini, "vision_per_token" => some 2
  | .gemini, "vision_per_image" => some 20000
  | .arcads, "avatar_generation" => some 5000000
  | .replicate, "wav2lip_per_second" => some 10000
  | _, _ => none

/-- `CostEntry` (`cost_tracker.py`): a single ledger entry.  `metadata` is a
free-form dict, modelled as a string association list. -/
structure CostEntry where
  timestamp : String
  provider : Provider
  operation : String
  units : Int
  unit_cost : ℤ
  total_cost : ℤ
  task_id : Option String := none
  metadata : List (String × String) := []
deriving DecidableEq, Repr

/-- One line of `cost_tracking.jsonl` — the JSON object `_save_entry`
writes (provider stored by its string value). -/
structure EntryData where
  timestamp : String
  provider : String
  operation : String
  units : Int
  unit_cost : ℤ
  total_cost : ℤ
  task_id : Option String
  metadata : List (String × String)
deriving DecidableEq, Repr

/-- The dict `_save_entry` serializes a `CostEntry` to. -/
def serializeEntry (e : CostEntry) : EntryData :=
  { timestamp := e.timestamp
    provider := e.provider.value
    operation := e.operation
    units := e.units
    unit_cost := e.unit_cost
    total_cost := e.total_cost
    task_id := e.task_id
    metadata := e.metadata }

/-- `_load_existing` reconstructs a `CostEntry` from one JSONL line;
`Provider(data['provider'])` raises (here `none`) on an unknown value. -/
def parseEntry (d : EntryData) : Option CostEntry :=
  (Provider.ofValue d.provider).map (fun p =>
    { timestamp := d.timestamp
      provider := p
      operation := d.operation
      units := d.units
      unit_cost := d.unit_cost
      total_cost := d.total_cost
      task_id := d.task_id
      metadata := d.metadata })

/-- The `_total_by_provider` dict, initialized to `0.0` for every provider
(`{p: 0.0 for p in Provider}`). -/
structure ProviderTotals where
  elevenlabs : ℤ := 0
  gemini : ℤ := 0
  arcads : ℤ := 0
  replicate : ℤ := 0
deriving DecidableEq, Repr

/-- Dict lookup `_total_by_provider[p]`. -/
def ProviderTotals.get (t : ProviderTotals) : Provider → ℤ
  | .elevenlabs => t.elevenlabs
  | .gemini => t.gemini
  | .arcads => t.arcads
  | .replicate => t.replicate

/-- Dict update `_total_by_provider[p] += c`. -/
def ProviderTotals.add (t : ProviderTotals) (p : Provider) (c : ℤ) :
    ProviderTotals :=
  match p with
  | .elevenlabs => { t with elevenlabs := t.elevenlabs + c }
  | .gemini => { t with gemini := t.gemini + c }
  | .arcads => { t with arcads := t.arcads + c }
  | .replicate => { t with replicate := t.replicate + c }

/-- `sum(self._total_by_provider.values())`. -/
def ProviderTotals.sum (t : ProviderTotals) : ℤ :=
  t.elevenlabs + t.gemini + t.arcads + t.replicate

/-- `CostTracker` (`cost_tracker.py`).  `saved` models the contents of the
durable `cost_tracking.jsonl` file backing this tracker (one `EntryData`
per appended line). -/
structure CostTracker where
  cost_cap : ℤ
  entries : List CostEntry := []
  total_by_provider : ProviderTotals := {}
  saved : List EntryData := []
deriving DecidableEq, Repr

/-- `CostTracker.get_total_cost`: total cost across all providers. -/
def CostTracker.get_total_cost (t : CostTracker) : ℤ :=
  t.total_by_provider.sum

/-- The two error exits of `track_cost`: `ValueError` for a missing rate and
`CostCapExceeded` for a cap breach (display-only message strings omitted). -/
inductive TrackError where
  | unknownRate
  | capExceeded
deriving DecidableEq, Repr

/-- `CostTracker.track_cost`: price the operation (static rate card when
`unit_cost` is omitted, else `UnknownRate`); fail with `CapExceeded` when
`current_total + units * unit_cost` would exceed the cap, touching nothing;
otherwise append the entry, bump the provider total, append the entry to
the durable file, and return the cost.  Python exceptions leave `self` as
already mutated, so the tracker is returned in both outcomes; both `raise`
sites precede every mutation, which the returned state makes checkable. -/
def CostTracker.track_cost (self : CostTracker) (provider : Provider)
    (operation : String) (units : Int) (unit_cost? : Option ℤ := none)
    (task_id : Option String := none)
    (metadata : List (String × String) := []) (now : String := "") :
    CostTracker × Except TrackError ℤ :=
  let rate? := match unit_cost? with
    | some r => Except.ok r
    | none => match provider_rates provider operation with
      | some r => Except.ok r
      | none => Except.error TrackError.unknownRate
  match rate? with
  | Except.error e => (self, Except.error e)
  | Except.ok unit_cost =>
    let total_cost := units * unit_cost
    let new_total := self.get_total_cost + total_cost
    if new_total > self.cost_cap then
      (self, Except.error TrackError.capExceeded)
    else
      let entry : CostEntry :=
        { timestamp := now
          provider := provider
          operation := operation
          units := units
          unit_cost := unit_cost
          total_cost := total_cost
          task_id := task_id
          metadata := metadata }
      ({ self with
          entries := self.entries ++ [entry]
          total_by_provider := self.total_by_provider.add provider total_cost
          saved := self.saved ++ [serializeEntry entry] },
       Except.ok total_cost)

/-- `CostTracker.__init__` with no pre-existing file: empty ledger. -/
def CostTracker.empty (cost_cap : ℤ) : CostTracker :=
  { cost_cap := cost_cap }

/-- One iteration of the `_load_existing` replay loop: parse the line (a
malformed one raises, modelled by `none`), append the entry and bump its
provider's running total. -/
def loadStep (acc? : Option CostTracker) (line : EntryData) :
    Option CostTracker :=
  acc?.bind (fun acc =>
    (parseEntry line).map (fun entry =>
      { acc with
          entries := acc.entries ++ [entry]
          total_by_provider :=
            acc.total_by_provider.add entry.provider entry.total_cost }))

/-- `CostTracker.__init__` + `_load_existing`: replay every line of a prior
`cost_tracking.jsonl` in file order, rebuilding `entries` and the
per-provider totals; `none` models the exception a malformed line raises. -/
def CostTracker.loadExisting (cost_cap : ℤ) (file : List EntryData) :
    Option CostTracker :=
  file.foldl loadStep (some { cost_cap := cost_cap, saved := file })

/-- One call to `track_cost`, as data (for quantifying over call
sequences). -/
structure TrackCall where
  provider : Provider
  operation : String
  units : Int
  unit_cost? : Option ℤ := none
  task_id : Option String := none
  metadata : List (String × String) := []
  now : String := ""
deriving Repr

/-- Run a sequence of `track_cost` calls, keeping the tracker state and
discarding each call's result (a failed call changes nothing). -/
def runCalls (calls : List TrackCall) (t : CostTracker) : CostTracker :=
  calls.foldl
    (fun t c =>
      (t.track_cost c.provider c.operation c.units c.unit_cost? c.task_id
        c.metadata c.now).1)
    t

/-! ## Run state and serialization (`models.py`) -/

/-- `VideoOutputs` (`models.py`): video pipeline outputs (paths modelled as
strings). -/
structure VideoOutputs where
  ugc_video : Option String := none
  broll_video : Option String := none
  captioned_video : Option String := none
  timeline_json : Option String := none
deriving DecidableEq, Repr

/-- `TaskResult` (`models.py`): result of a generation task. -/
structure TaskResult where
  task_id : String
  status : TaskStatus
  start_time : String
  end_time : Option String := none
  error_message : Option String := none
  outputs : List (String × String) := []
  video_outputs : Option VideoOutputs := none
  costs : List (String × ℤ) := []
deriving DecidableEq, Repr

/-- `TaskResult.total_cost`: `sum(self.costs.values())`. -/
def TaskResult.total_cost (r : TaskResult) : ℤ :=
  (r.costs.map Prod.snd).sum

/-- `RunState` (`models.py`): pipeline run state for persistence.
`task_results` is an insertion-ordered dict. -/
structure RunState where
  run_id : String
  config_hash : String
  total_tasks : Nat
  completed_tasks : List String := []
  failed_tasks : List String := []
  task_results : List (String × TaskResult) := []
  total_cost : ℤ := 0
  start_time : String := ""
  end_time : Option String := none
deriving DecidableEq, Repr

/-- The per-result dict `RunState.to_dict` builds: every `TaskResult` field
except `video_outputs`, which is not serialized. -/
structure TaskResultData where
  task_id : String
  status : String
  start_time : String
  end_time : Option String
  error_message : Option String
  outputs : List (String × String)
  costs : List (String × ℤ)
deriving DecidableEq, Repr

/-- The dict `RunState.to_dict` returns (and `save` writes as
`state.json`). -/
structure RunStateData where
  run_id : String
  config_hash : String
  total_tasks : Nat
  completed_tasks : List String
  failed_tasks : List String
  task_results : List (String × TaskResultData)
  total_cost : ℤ
  start_time : String
  end_time : Option String
deriving DecidableEq, Repr

/-- The serialization of one `TaskResult` inside `RunState.to_dict`
(status by its string value, times by `isoformat`, paths by `str`;
`video_outputs` omitted). -/
def TaskResult.serialize (r : TaskResult) : TaskResultData :=
  { task_id := r.task_id
    status := r.status.value
    start_time := r.start_time
    end_time := r.end_time
    error_message := r.error_message
    outputs := r.outputs
    costs := r.costs }

/-- `RunState.to_dict`. -/
def RunState.to_dict (s : RunState) : RunStateData :=
  { run_id := s.run_id
    config_hash := s.config_hash
    total_tasks := s.total_tasks
    completed_tasks := s.completed_tasks
    failed_tasks := s.failed_tasks
    task_results := s.task_results.map (fun kv => (kv.1, kv.2.serialize))
    total_cost := s.total_cost
    start_time := s.start_time
    end_time := s.end_time }

/-- Reconstruction of one `TaskResult` in `RunState.from_dict`:
`TaskStatus(value)` raises (here `none`) on an unknown status; the
`if result_data["end_time"]` truthiness test coincides with a `None` test
because `isoformat` never yields an empty string; `video_outputs` is not
reconstructed and keeps its `None` default. -/
def TaskResultData.deserialize (d : TaskResultData) : Option TaskResult :=
  (TaskStatus.ofValue d.status).map (fun status =>
    { task_id := d.task_id
      status := status
      start_time := d.start_time
      end_time := d.end_time
      error_message := d.error_message
      outputs := d.outputs
      video_outputs := none
      costs := d.costs })

/-- One iteration of the `from_dict` reconstruction loop: deserialize the
result (an unknown status raises, modelled by `none`) and re-insert it
under its dict key. -/
def fromDictStep (acc? : Option RunState) (kv : String × TaskResultData) :
    Option RunState :=
  acc?.bind (fun acc =>
    (kv.2.deserialize).map (fun r =>
      { acc with task_results := acc.task_results ++ [(kv.1, r)] }))

/-- `RunState.from_dict`: rebuild the state, then re-insert each task
result in dict order; any unknown status string raises (here `none`). -/
def RunState.from_dict (data : RunStateData) : Option RunState :=
  data.task_results.foldl fromDictStep
    (some
      { run_id := data.run_id
        config_hash := data.config_hash
        total_tasks := data.total_tasks
        completed_tasks := data.completed_tasks
        failed_tasks := data.failed_tasks
        task_results := []
        total_cost := data.total_cost
        start_time := data.start_time
        end_time := data.end_time })

/-! ## Pipeline runner (`runner.py`)

The dispatch loop `_run_tasks_async` creates one coroutine per task up
front, admits them through `asyncio.Semaphore(max_parallel)` in creation
order, and awaits them all with `asyncio.gather`.  Execution is
single-threaded and cooperative: the block that records a result into
`RunState` and (conditionally) checkpoints it contains no `await`, so it
runs atomically.  Every coroutine body awaits the same simulated work, so
completions occur in dispatch order; we model the loop as a left fold over
the task list, one `runner_task_step` per task completion.  Reaching the
cost cap only executes `return` inside the current coroutine — `gather`
still awaits every other coroutine and nothing is cancelled — which the
fold mirrors by continuing over the remaining tasks unconditionally. -/

/-- Modelled from the spec: the outcome of the provider-pipeline steps
invoked inside the `try` block of `_process_task`.  The source's provider
calls are placeholder comments with a simulated success; per spec §6 each
step either returns artifact paths and costs or raises a provider-specific
error, so the outcome is taken as a parameter of the run. -/
inductive PipelineOutcome where
  | ok (outputs : List (String × String)) (costs : List (String × ℤ))
  | error (msg : String)
deriving DecidableEq, Repr

/-- The simulated success hard-coded in `_process_task`: one output
`final_video` and costs `tts = 0.15`, `rubric = 0.06`. -/
def simulatedOutcome (task : VariantTask) : PipelineOutcome :=
  .ok [("final_video", task.actor_id ++ "_" ++ task.variant_type.value)]
    [("tts", 150000), ("rubric", 60000)]

/-- `PipelineRunner._process_task`: build an `IN_PROGRESS` result, run the
pipeline steps; on success record outputs/costs and mark `COMPLETED`, on
any exception mark `FAILED` with the message (outputs and costs keep
whatever was set before the raise — here nothing).  Wall-clock timestamps
are irrelevant to every property and modelled as `""`. -/
def process_task (task : VariantTask) (outcome : PipelineOutcome) :
    TaskResult :=
  match outcome with
  | .ok outputs costs =>
      { task_id := task.task_id
        status := .completed
        start_time := ""
        end_time := some ""
        outputs := outputs
        costs := costs }
  | .error msg =>
      { task_id := task.task_id
        status := .failed
        start_time := ""
        end_time := some ""
        error_message := some msg }

/-- Dict assignment `m[k] = v`: replace an existing key in place, append a
fresh one. -/
def dictSet (m : List (String × α)) (k : String) (v : α) :
    List (String × α) :=
  if m.any (fun kv => kv.1 == k) then
    m.map (fun kv => if kv.1 == k then (k, v) else kv)
  else m ++ [(k, v)]

/-- The mutable context of one `_run_tasks_async` call: the runner's
`RunState`, the successive durable `state.json` checkpoint contents written
by `_save_state` (`saves`), the runner's `cost_tracker` attribute (set to
`None` in `__init__` and never assigned or consulted during a run), the
local `results` dict, and the ids of tasks whose processing has started. -/
structure RunnerCtx where
  state : RunState
  saves : List RunState := []
  cost_tracker : Option CostTracker := none
  results : List (String × TaskResult) := []
  processed : List String := []
deriving Repr

/-- The body of `process_with_semaphore` for one task: process it, record
the result into `results` and `RunState` (results dict, completed/failed
list, `total_cost`), then — only when `total_cost` is still below the cap —
checkpoint the state with `_save_state`.  When `total_cost >= cost_cap`
the coroutine logs a warning and returns early: the checkpoint is skipped
and no other coroutine is cancelled.  The runner's `cost_tracker` is not
touched on any path. -/
def runner_task_step (cost_cap : ℤ) (ctx : RunnerCtx) (task : VariantTask)
    (outcome : PipelineOutcome) : RunnerCtx :=
  let result := process_task task outcome
  let st0 := ctx.state
  let st1 := { st0 with
    task_results := dictSet st0.task_results task.task_id result }
  let st2 :=
    if result.status = .completed then
      { st1 with completed_tasks := st1.completed_tasks ++ [task.task_id] }
    else if result.status = .failed then
      { st1 with failed_tasks := st1.failed_tasks ++ [task.task_id] }
    else st1
  let st3 := { st2 with total_cost := st2.total_cost + result.total_cost }
  if st3.total_cost ≥ cost_cap then
    { ctx with
        state := st3
        results := dictSet ctx.results task.task_id result
        processed := ctx.processed ++ [task.task_id] }
  else
    { ctx with
        state := st3
        results := dictSet ctx.results task.task_id result
        processed := ctx.processed ++ [task.task_id]
        saves := ctx.saves ++ [st3] }

/-- `PipelineRunner._run_tasks_async`: every created coroutine runs to
completion (see the section comment); one `runner_task_step` per task in
dispatch order. -/
def run_tasks_async (cost_cap : ℤ)
    (oracle : VariantTask → PipelineOutcome) (tasks : List VariantTask)
    (ctx : RunnerCtx) : RunnerCtx :=
  tasks.foldl (fun ctx task => runner_task_step cost_cap ctx task (oracle task))
    ctx

/-- The fresh `RunState` a new run starts from (`PipelineRunner.run`). -/
def initialRunState (run_id config_hash : String) (total_tasks : Nat) :
    RunState :=
  { run_id := run_id, config_hash := config_hash, total_tasks := total_tasks }

/-- Sum of `TaskResult.total_cost` over the entries of a results dict. -/
def sumResultCosts (trs : List (String × TaskResult)) : ℤ :=
  (trs.map (fun kv => kv.2.total_cost)).sum

/-! ## Shared concrete values and small helpers used by the theorems -/

/-- A two-actor configuration with the default variant settings
(`identical_script = true`, `minor_script_variants = 3`); the actors come
from the legacy name-only format, so `validate_actors` gives them an
empty `scene_id`. -/
def exCfg : PipelineConfig :=
  { offer_id := "offer1"
    actors := [{ name := "alice", scene_id := "" },
               { name := "bob", scene_id := "" }]
    variants := {} }

/-- A small concrete task with a transparent id, for runner scenarios. -/
def mkExTask (n : Nat) : VariantTask :=
  { task_id := "t" ++ toString n
    actor := { name := "alice", scene_id := "" }
    variant_type := .modified
    variant_num := n
    script_text := some "s" }

/-- Three concrete tasks. -/
def exTasks3 : List VariantTask := [mkExTask 1, mkExTask 2, mkExTask 3]

/-- Five concrete tasks. -/
def exTasks5 : List VariantTask :=
  [mkExTask 1, mkExTask 2, mkExTask 3, mkExTask 4, mkExTask 5]

/-- A provider-pipeline behaviour where exactly the third task raises. -/
def exOracle9 (t : VariantTask) : PipelineOutcome :=
  if t.task_id = "t3" then .error "provider error" else simulatedOutcome t

/-- The runner context at the start of a fresh run over `total` tasks. -/
def exInitCtx (total : Nat) : RunnerCtx :=
  { state := initialRunState "run_1" "confighash" total }

/-- One $0.40 operation (units 1, explicit unit cost 2/5), as a call. -/
def exCall40 : TrackCall :=
  { provider := .arcads, operation := "op", units := 1, unit_cost? := some 400000 }

/-- The ledger after `n` of the $0.40 operations against cap $1.00. -/
def capScenario (n : Nat) : CostTracker :=
  runCalls (List.replicate n exCall40) (CostTracker.empty 1000000)

/-- Per-provider totals accumulated from a list of entries (the way both
the live ledger and `_load_existing` accumulate them, in order). -/
def totalsOfEntries (entries : List CostEntry) : ProviderTotals :=
  entries.foldl (fun tp e => tp.add e.provider e.total_cost) {}

/-- A `RunState` with `video_outputs` blanked on every task result — what
the `to_dict`/`from_dict` round trip preserves of a state. -/
def stripVideoOutputs (s : RunState) : RunState :=
  { s with
      task_results :=
        s.task_results.map (fun kv => (kv.1, { kv.2 with video_outputs := none })) }

/-- A concrete run state whose single task result has no video outputs. -/
def exRunState : RunState :=
  { run_id := "run_1"
    config_hash := "confighash"
    total_tasks := 1
    completed_tasks := ["t1"]
    task_results :=
      [("t1",
        { task_id := "t1"
          status := .completed
          start_time := "2024-01-01T00:00:00"
          end_time := some "2024-01-01T00:00:01"
          outputs := [("final_video", "alice_modified_01.mp4")]
          costs := [("tts", 150000), ("rubric", 60000)] })]
    total_cost := 210000
    start_time := "2024-01-01T00:00:00" }

/-! ## Theorems — matrix builder -/

set_option maxRecDepth 8000

/-- Sanity check of the MD5 embedding against a published test vector. -/
theorem md5hex_testvector :
    md5hex "abc" = "900150983cd24fb0d6963f7d28e17f72" := by decide

/-- C4 [code defect]: `build_matrix` never yields a task-id sequence at
all.  On the first task it emits, the
`VariantTask(task_id=..., actor_id=...)` call raises `TypeError` — the
dataclass has no `actor_id` constructor parameter (it is a read-only
property) and the required `actor` field is never passed — and the id the
source computes just before the call hashes the pydantic `Actor` object
dataclass repr, not the actor name.  Both facts evaluated at a concrete
two-actor configuration: the run raises, and the id that would have been
attached to the first task is the hash of
`offer1_Actor(name=alice-quoted, scene_id=empty, voice_id=None,
style=None)_identical_0`. -/
theorem C4_build_matrix_raises :
    build_matrix exCfg "s" =
      Except.error (PyError.typeError
        "VariantTask.__init__ got an unexpected keyword argument actor_id") ∧
    generate_task_id exCfg.offer_id
        (Actor.pyRepr { name := "alice", scene_id := "" }) "identical" 0 =
      "f453f379a3cb" :=
  ⟨by rfl, by decide⟩

/-- C5 [code defect]: with the claim of its own scenario — 2 actors,
`identical_script = true`, `minor_script_variants = 3` — `build_matrix`
returns no task list of any length, let alone the claimed
`2 * (1 + 3) = 8` tasks: the first constructor call raises `TypeError`,
so the call has no `ok` result. -/
theorem C5_matrix_size_unreachable :
    exCfg.actors.length = 2 ∧
    exCfg.variants.identical_script = true ∧
    exCfg.variants.minor_script_variants = 3 ∧
    (build_matrix exCfg "s").toOption = none :=
  ⟨by decide, by decide, by decide, by decide⟩

/-- C6 [code defect]: `get_resume_tasks` recomputes the matrix through
`build_matrix`, so every call on a configuration with at least one task
raises the same `TypeError` instead of returning the filtered
subsequence — shown both for an empty done-set and a nonempty one. -/
theorem C6_resume_raises :
    get_resume_tasks exCfg "s" [] =
      Except.error (PyError.typeError
        "VariantTask.__init__ got an unexpected keyword argument actor_id") ∧
    get_resume_tasks exCfg "s" ["1825298892ab", "f453f379a3cb"] =
      Except.error (PyError.typeError
        "VariantTask.__init__ got an unexpected keyword argument actor_id") :=
  ⟨by rfl, by rfl⟩

/-! ## Theorems — cost ledger -/

theorem parseEntry_serializeEntry (e : CostEntry) :
    parseEntry (serializeEntry e) = some e := by
  cases e with
  | mk ts p op u uc tc tid md => cases p <;> rfl

theorem runCalls_cons (c : TrackCall) (cs : List TrackCall)
    (t : CostTracker) :
    runCalls (c :: cs) t =
      runCalls cs
        (t.track_cost c.provider c.operation c.units c.unit_cost? c.task_id
          c.metadata c.now).1 := rfl

theorem tracker_inv_append (t : CostTracker) (e : CostEntry)
    (hs : t.saved = t.entries.map serializeEntry)
    (hp : t.total_by_provider = totalsOfEntries t.entries) :
    ({ t with
        entries := t.entries ++ [e]
        total_by_provider := t.total_by_provider.add e.provider e.total_cost
        saved := t.saved ++ [serializeEntry e] } : CostTracker).saved =
      ({ t with
        entries := t.entries ++ [e]
        total_by_provider := t.total_by_provider.add e.provider e.total_cost
        saved := t.saved ++ [serializeEntry e] } :
          CostTracker).entries.map serializeEntry ∧
    ({ t with
        entries := t.entries ++ [e]
        total_by_provider := t.total_by_provider.add e.provider e.total_cost
        saved := t.saved ++ [serializeEntry e] } :
          CostTracker).total_by_provider =
      totalsOfEntries ({ t with
        entries := t.entries ++ [e]
        total_by_provider := t.total_by_provider.add e.provider e.total_cost
        saved := t.saved ++ [serializeEntry e] } : CostTracker).entries := by
  constructor
  · simp [hs]
  · rw [show ({ t with
        entries := t.entries ++ [e]
        total_by_provider := t.total_by_provider.add e.provider e.total_cost
        saved := t.saved ++ [serializeEntry e] } :
          CostTracker).total_by_provider =
      t.total_by_provider.add e.provider e.total_cost from rfl, hp]
    simp [totalsOfEntries, List.foldl_append]

theorem track_cost_inv (t : CostTracker) (p : Provider) (op : String)
    (units : Int) (uc? : Option ℤ) (tid : Option String)
    (md : List (String × String)) (now : String)
    (hs : t.saved = t.entries.map serializeEntry)
    (hp : t.total_by_provider = totalsOfEntries t.entries) :
    (t.track_cost p op units uc? tid md now).1.saved =
      (t.track_cost p op units uc? tid md now).1.entries.map serializeEntry ∧
    (t.track_cost p op units uc? tid md now).1.total_by_provider =
      totalsOfEntries (t.track_cost p op units uc? tid md now).1.entries := by
  unfold CostTracker.track_cost
  rcases uc? with _ | r
  · rcases hpr : provider_rates p op with _ | r
    · simp only [hpr]
      exact ⟨hs, hp⟩
    · simp only [hpr]
      split
      · exact ⟨hs, hp⟩
      · exact tracker_inv_append t
          { timestamp := now, provider := p, operation := op,
            units := units, unit_cost := r, total_cost := units * r,
            task_id := tid, metadata := md } hs hp
  · simp only []
    split
    · exact ⟨hs, hp⟩
    · exact tracker_inv_append t
        { timestamp := now, provider := p, operation := op,
          units := units, unit_cost := r, total_cost := units * r,
          task_id := tid, metadata := md } hs hp

theorem runCalls_inv (calls : List TrackCall) (t : CostTracker)
    (hs : t.saved = t.entries.map serializeEntry)
    (hp : t.total_by_provider = totalsOfEntries t.entries) :
    (runCalls calls t).saved =
      (runCalls calls t).entries.map serializeEntry ∧
    (runCalls calls t).total_by_provider =
      totalsOfEntries (runCalls calls t).entries := by
  induction calls generalizing t with
  | nil => exact ⟨hs, hp⟩
  | cons c cs ih =>
      rw [runCalls_cons]
      obtain ⟨hs', hp'⟩ := track_cost_inv t c.provider c.operation c.units
        c.unit_cost? c.task_id c.metadata c.now hs hp
      exact ih _ hs' hp'

theorem loadStep_replay (entries : List CostEntry) (acc : CostTracker) :
    (entries.map serializeEntry).foldl loadStep (some acc) =
      some { acc with
        entries := acc.entries ++ entries
        total_by_provider :=
          entries.foldl (fun tp e => tp.add e.provider e.total_cost)
            acc.total_by_provider } := by
  induction entries generalizing acc with
  | nil => simp
  | cons e rest ih =>
      rw [List.map_cons, List.foldl_cons]
      have hstep : loadStep (some acc) (serializeEntry e) =
          some { acc with
            entries := acc.entries ++ [e]
            total_by_provider :=
              acc.total_by_provider.add e.provider e.total_cost } := by
        unfold loadStep
        rw [parseEntry_serializeEntry]
        rfl
      rw [hstep, ih]
      simp [List.append_assoc]

/-- C7: reconstructing a ledger by replaying its persisted JSONL lines in
file order (the `_load_existing` recovery path) yields the same entries,
the same per-provider totals and the same `get_total_cost` as the live
ledger that produced those lines, for every sequence of `track_cost`
calls starting from a fresh ledger. -/
theorem C7_ledger_replay (cap : ℤ) (calls : List TrackCall) :
    ∃ replayed,
      CostTracker.loadExisting cap
          (runCalls calls (CostTracker.empty cap)).saved = some replayed ∧
      replayed.entries = (runCalls calls (CostTracker.empty cap)).entries ∧
      replayed.total_by_provider =
        (runCalls calls (CostTracker.empty cap)).total_by_provider ∧
      replayed.get_total_cost =
        (runCalls calls (CostTracker.empty cap)).get_total_cost := by
  obtain ⟨hs, hp⟩ := runCalls_inv calls (CostTracker.empty cap) rfl rfl
  have hload : CostTracker.loadExisting cap
      (runCalls calls (CostTracker.empty cap)).saved =
      some { cost_cap := cap
             entries := (runCalls calls (CostTracker.empty cap)).entries
             total_by_provider :=
               (runCalls calls (CostTracker.empty cap)).total_by_provider
             saved := (runCalls calls (CostTracker.empty cap)).saved } := by
    unfold CostTracker.loadExisting
    rw [hs, loadStep_replay]
    rw [hp]
    rfl
  exact ⟨_, hload, rfl, rfl, rfl⟩

/-- C1: whenever the running total plus `units * unit_cost` would exceed
the cap, `track_cost` fails with `CapExceeded` and the ledger is unchanged
— no entry appended, per-provider totals untouched, nothing persisted (the
returned tracker is exactly the input one).  Concretely, with cap $1.00,
three sequential $0.40 operations: the first two succeed, the third fails
with CapExceeded, and the total stays $0.80. -/
theorem C1_cap_enforcement :
    (∀ (t : CostTracker) (p : Provider) (op : String) (units : Int) (r : ℤ)
        (tid : Option String) (md : List (String × String)) (now : String),
      t.get_total_cost + units * r > t.cost_cap →
        t.track_cost p op units (some r) tid md now =
          (t, Except.error TrackError.capExceeded)) ∧
    ((capScenario 0).track_cost .arcads "op" 1 (some 400000)).2 =
      Except.ok 400000 ∧
    ((capScenario 1).track_cost .arcads "op" 1 (some 400000)).2 =
      Except.ok 400000 ∧
    (capScenario 2).get_total_cost = 800000 ∧
    ((capScenario 2).track_cost .arcads "op" 1 (some 400000)).2 =
      Except.error TrackError.capExceeded ∧
    capScenario 3 = capScenario 2 ∧
    (capScenario 3).get_total_cost = 800000 := by
  refine ⟨?_, by rfl, by rfl, by decide, by rfl, by decide, by decide⟩
  intro t p op units r tid md now h
  unfold CostTracker.track_cost
  simp only []
  rw [if_pos h]

/-- C1 witness: a concrete cap breach — cap $1.00, a single operation of 3
units at $0.40 each — fails with CapExceeded and leaves the empty ledger
unchanged. -/
theorem C1_cap_enforcement_witness :
    (CostTracker.empty 1000000).track_cost Provider.arcads "op" 3
        (some 400000) none [] "" =
      (CostTracker.empty 1000000, Except.error TrackError.capExceeded) :=
  C1_cap_enforcement.1 (CostTracker.empty 1000000) Provider.arcads "op" 3
    400000 none [] "" (by decide)

/-! ## Theorems — runner dispatch loop -/

theorem dictSet_append (m : List (String × TaskResult)) (k : String)
    (v : TaskResult) (h : ∀ kv ∈ m, kv.1 ≠ k) :
    dictSet m k v = m ++ [(k, v)] := by
  have hany : (m.any (fun kv => kv.1 == k)) = false := by
    rw [List.any_eq_false]
    intro x hx
    simpa using h x hx
  simp [dictSet, hany]

theorem runner_task_step_spec (cost_cap : ℤ) (ctx : RunnerCtx)
    (task : VariantTask) (outcome : PipelineOutcome) :
    runner_task_step cost_cap ctx task outcome =
      { ctx with
          state :=
            { ctx.state with
                task_results :=
                  dictSet ctx.state.task_results task.task_id
                    (process_task task outcome)
                completed_tasks := ctx.state.completed_tasks ++
                  (if (process_task task outcome).status = .completed then
                    [task.task_id] else [])
                failed_tasks := ctx.state.failed_tasks ++
                  (if (process_task task outcome).status = .failed then
                    [task.task_id] else [])
                total_cost := ctx.state.total_cost +
                  (process_task task outcome).total_cost }
          results := dictSet ctx.results task.task_id
            (process_task task outcome)
          processed := ctx.processed ++ [task.task_id]
          saves := ctx.saves ++
            (if ctx.state.total_cost + (process_task task outcome).total_cost
                ≥ cost_cap then []
             else [{ ctx.state with
                task_results :=
                  dictSet ctx.state.task_results task.task_id
                    (process_task task outcome)
                completed_tasks := ctx.state.completed_tasks ++
                  (if (process_task task outcome).status = .completed then
                    [task.task_id] else [])
                failed_tasks := ctx.state.failed_tasks ++
                  (if (process_task task outcome).status = .failed then
                    [task.task_id] else [])
                total_cost := ctx.state.total_cost +
                  (process_task task outcome).total_cost }]) } := by
  cases outcome with
  | ok outputs costs =>
      simp [runner_task_step, process_task, ge_iff_le]
      split_ifs <;> simp_all
  | error msg =>
      simp [runner_task_step, process_task, ge_iff_le]
      split_ifs <;> simp_all

theorem run_tasks_async_cons (cost_cap : ℤ)
    (oracle : VariantTask → PipelineOutcome) (t : VariantTask)
    (rest : List VariantTask) (ctx : RunnerCtx) :
    run_tasks_async cost_cap oracle (t :: rest) ctx =
      run_tasks_async cost_cap oracle rest
        (runner_task_step cost_cap ctx t (oracle t)) := rfl

theorem run_tasks_async_spec (cost_cap : ℤ)
    (oracle : VariantTask → PipelineOutcome) :
    ∀ (tasks : List VariantTask) (ctx : RunnerCtx),
      (tasks.map VariantTask.task_id).Nodup →
      (∀ t ∈ tasks, ∀ kv ∈ ctx.state.task_results, kv.1 ≠ t.task_id) →
      (run_tasks_async cost_cap oracle tasks ctx).state.task_results =
        ctx.state.task_results ++
          tasks.map (fun t => (t.task_id, process_task t (oracle t))) ∧
      (run_tasks_async cost_cap oracle tasks ctx).state.completed_tasks =
        ctx.state.completed_tasks ++
          (tasks.map (fun t =>
            if (process_task t (oracle t)).status = .completed then
              [t.task_id] else [])).flatten ∧
      (run_tasks_async cost_cap oracle tasks ctx).state.failed_tasks =
        ctx.state.failed_tasks ++
          (tasks.map (fun t =>
            if (process_task t (oracle t)).status = .failed then
              [t.task_id] else [])).flatten ∧
      (run_tasks_async cost_cap oracle tasks ctx).state.total_cost =
        ctx.state.total_cost +
          (tasks.map (fun t => (process_task t (oracle t)).total_cost)).sum ∧
      (run_tasks_async cost_cap oracle tasks ctx).processed =
        ctx.processed ++ tasks.map VariantTask.task_id ∧
      (run_tasks_async cost_cap oracle tasks ctx).cost_tracker =
        ctx.cost_tracker := by
  intro tasks
  induction tasks with
  | nil =>
      intro ctx _ _
      simp [run_tasks_async]
  | cons t rest ih =>
      intro ctx hN hdisj
      rw [List.map_cons, List.nodup_cons] at hN
      have hkey : ∀ kv ∈ ctx.state.task_results, kv.1 ≠ t.task_id :=
        hdisj t (List.mem_cons_self t rest)
      have hdict := dictSet_append ctx.state.task_results t.task_id
        (process_task t (oracle t)) hkey
      have hdisj' : ∀ t' ∈ rest,
          ∀ kv ∈ (runner_task_step cost_cap ctx t
            (oracle t)).state.task_results, kv.1 ≠ t'.task_id := by
        rw [runner_task_step_spec]
        dsimp only
        rw [hdict]
        intro t' ht' kv hkv
        rcases List.mem_append.mp hkv with h | h
        · exact hdisj t' (List.mem_cons_of_mem t ht') kv h
        · rw [List.mem_singleton] at h
          subst h
          intro hEq
          have hEq' : t.task_id = t'.task_id := hEq
          apply hN.1
          rw [hEq']
          exact List.mem_map_of_mem VariantTask.task_id ht'
      obtain ⟨h1, h2, h3, h4, h5, h6⟩ :=
        ih (runner_task_step cost_cap ctx t (oracle t)) hN.2 hdisj'
      rw [run_tasks_async_cons]
      refine ⟨?_, ?_, ?_, ?_, ?_, ?_⟩
      · rw [h1, runner_task_step_spec, hdict]
        simp
      · rw [h2, runner_task_step_spec]
        simp
      · rw [h3, runner_task_step_spec]
        simp
      · rw [h4, runner_task_step_spec]
        simp [add_assoc]
      · rw [h5, runner_task_step_spec]
        simp
      · rw [h6, runner_task_step_spec]

/-- C2 [code defect]: with cap $0.40 and three simulated tasks costing
$0.21 each, the cap is reached and observed at the second task's
checkpoint ($0.42 ≥ $0.40) — yet the third, not-yet-started task is still
dispatched, runs to completion and is recorded (total $0.63).  The cap
branch of `process_with_semaphore` only executes `return` inside the
current coroutine (its comment says "Cancel remaining tasks", but nothing
is cancelled: `asyncio.gather` still awaits every pending coroutine), so
dispatch of new tasks does not stop. -/
theorem C2_cap_does_not_stop_dispatch :
    (run_tasks_async 400000 simulatedOutcome [mkExTask 1, mkExTask 2]
        (exInitCtx 3)).state.total_cost = 420000 ∧
    (420000 : ℤ) ≥ 400000 ∧
    (run_tasks_async 400000 simulatedOutcome exTasks3
        (exInitCtx 3)).processed = ["t1", "t2", "t3"] ∧
    (run_tasks_async 400000 simulatedOutcome exTasks3
        (exInitCtx 3)).state.completed_tasks = ["t1", "t2", "t3"] ∧
    (run_tasks_async 400000 simulatedOutcome exTasks3
        (exInitCtx 3)).state.total_cost = 630000 :=
  ⟨by decide, by decide, by decide, by decide, by decide⟩

/-- C3 counterexample: in the same $0.40-cap run over three $0.21 tasks,
three task results are recorded into `RunState`, but only one checkpoint
(`state.json` write) ever happens — the one after task 1.  The mutation
for task 2 reaches the cap, so the coroutine returns before
`_save_state`, and task 3's result is then recorded while the task-2
state was never persisted. -/
theorem C3_checkpoint_counterexample :
    (run_tasks_async 400000 simulatedOutcome exTasks3
        (exInitCtx 3)).state.task_results.map Prod.fst =
      ["t1", "t2", "t3"] ∧
    (run_tasks_async 400000 simulatedOutcome exTasks3
        (exInitCtx 3)).saves.map RunState.total_cost = [210000] :=
  ⟨by decide, by decide⟩

/-- C3 (amended): a per-task mutation of `RunState` is immediately
followed by a checkpoint write of exactly the mutated state whenever the
mutated `total_cost` is still below the cap; when the mutation reaches or
exceeds the cap, the checkpoint is skipped (no save is written for it). -/
theorem C3_checkpoint_after_mutation (cost_cap : ℤ) (ctx : RunnerCtx)
    (task : VariantTask) (outcome : PipelineOutcome) :
    ((runner_task_step cost_cap ctx task outcome).state.total_cost <
        cost_cap →
      (runner_task_step cost_cap ctx task outcome).saves =
        ctx.saves ++ [(runner_task_step cost_cap ctx task outcome).state]) ∧
    (cost_cap ≤
        (runner_task_step cost_cap ctx task outcome).state.total_cost →
      (runner_task_step cost_cap ctx task outcome).saves = ctx.saves) := by
  rw [runner_task_step_spec]
  dsimp only
  constructor
  · intro h
    rw [if_neg (not_le.mpr h)]
  · intro h
    rw [if_pos h]
    simp

/-- C3 amended witness: a concrete below-cap step (cap $30.00, one $0.21
task) writes exactly one checkpoint holding the mutated state. -/
theorem C3_checkpoint_after_mutation_witness :
    (runner_task_step 30000000 (exInitCtx 1) (mkExTask 1)
        (simulatedOutcome (mkExTask 1))).saves =
      (exInitCtx 1).saves ++
        [(runner_task_step 30000000 (exInitCtx 1) (mkExTask 1)
            (simulatedOutcome (mkExTask 1))).state] :=
  (C3_checkpoint_after_mutation 30000000 (exInitCtx 1) (mkExTask 1)
    (simulatedOutcome (mkExTask 1))).1 (by decide)

/-- C8 counterexample: the runner never records into any `CostTracker`
(`self.cost_tracker` is `None` and no run path touches a ledger), so
after one completed $0.21 task `RunState.total_cost = 210000` while the
ledger kept alongside the run is unchanged with total 0 — the claimed
equality between `total_cost` and the CostLedger's running total fails at
the very first checkpoint. -/
theorem C8_ledger_equality_counterexample :
    (run_tasks_async 30000000 simulatedOutcome [mkExTask 1]
        { state := initialRunState "run_1" "confighash" 1
          cost_tracker :=
            some (CostTracker.empty 30000000) }).state.total_cost =
      210000 ∧
    (run_tasks_async 30000000 simulatedOutcome [mkExTask 1]
        { state := initialRunState "run_1" "confighash" 1
          cost_tracker := some (CostTracker.empty 30000000) }).cost_tracker =
      some (CostTracker.empty 30000000) ∧
    (CostTracker.empty 30000000).get_total_cost = 0 ∧
    (210000 : ℤ) ≠ 0 :=
  ⟨by decide, by decide, by decide, by decide⟩

/-- C8 (amended): after every dispatch-loop run whose tasks carry
pairwise-distinct ids not already recorded, `RunState.total_cost` equals
the sum of the `costs` values across all entries of `task_results`
(provided the starting state satisfied the same equation); the runner's
`cost_tracker`, however, is left untouched by the whole run, so the
ledger-total half of the original claim cannot hold once any task has a
nonzero cost. -/
theorem C8_cost_additivity (cost_cap : ℤ)
    (oracle : VariantTask → PipelineOutcome) (tasks : List VariantTask)
    (ctx : RunnerCtx)
    (hN : (tasks.map VariantTask.task_id).Nodup)
    (hdisj : ∀ t ∈ tasks, ∀ kv ∈ ctx.state.task_results, kv.1 ≠ t.task_id)
    (hinv : ctx.state.total_cost = sumResultCosts ctx.state.task_results) :
    (run_tasks_async cost_cap oracle tasks ctx).state.total_cost =
      sumResultCosts
        (run_tasks_async cost_cap oracle tasks ctx).state.task_results ∧
    (run_tasks_async cost_cap oracle tasks ctx).cost_tracker =
      ctx.cost_tracker := by
  obtain ⟨h1, _, _, h4, _, h6⟩ :=
    run_tasks_async_spec cost_cap oracle tasks ctx hN hdisj
  refine ⟨?_, h6⟩
  rw [h1, h4, hinv]
  simp only [sumResultCosts, List.map_append, List.sum_append,
    List.map_map]
  rfl

/-- C8 amended witness: the invariant evaluated on a concrete five-task
run (task 3 failing). -/
theorem C8_cost_additivity_witness :
    (run_tasks_async 30000000 exOracle9 exTasks5
        (exInitCtx 5)).state.total_cost =
      sumResultCosts
        (run_tasks_async 30000000 exOracle9 exTasks5
          (exInitCtx 5)).state.task_results :=
  (C8_cost_additivity 30000000 exOracle9 exTasks5 (exInitCtx 5)
    (by decide) (by decide) (by decide)).1

/-- C9: a task whose provider-pipeline step raises is caught at that
task's boundary and recorded as a terminal Failed result carrying the
error message; no sibling task is cancelled or blocked — every task in
the list is processed and recorded, successes as Completed.  Concretely,
in a 5-task run where exactly task 3 raises, the run finishes with 4
Completed and 1 Failed, and task 3's recorded result carries the
message. -/
theorem C9_failure_isolation (cost_cap : ℤ)
    (oracle : VariantTask → PipelineOutcome) (tasks : List VariantTask)
    (ctx : RunnerCtx)
    (hN : (tasks.map VariantTask.task_id).Nodup)
    (hdisj : ∀ t ∈ tasks, ∀ kv ∈ ctx.state.task_results, kv.1 ≠ t.task_id) :
    (run_tasks_async cost_cap oracle tasks ctx).processed =
      ctx.processed ++ tasks.map VariantTask.task_id ∧
    (∀ task ∈ tasks, ∀ msg, oracle task = .error msg →
      ∃ r, (task.task_id, r) ∈
          (run_tasks_async cost_cap oracle tasks ctx).state.task_results ∧
        r.status = .failed ∧ r.error_message = some msg) ∧
    (∀ task ∈ tasks, ∀ outs costs, oracle task = .ok outs costs →
      ∃ r, (task.task_id, r) ∈
          (run_tasks_async cost_cap oracle tasks ctx).state.task_results ∧
        r.status = .completed) ∧
    (run_tasks_async 30000000 exOracle9 exTasks5
        (exInitCtx 5)).state.completed_tasks = ["t1", "t2", "t4", "t5"] ∧
    (run_tasks_async 30000000 exOracle9 exTasks5
        (exInitCtx 5)).state.failed_tasks = ["t3"] ∧
    (run_tasks_async 30000000 exOracle9 exTasks5
        (exInitCtx 5)).state.task_results.map
          (fun kv => (kv.1, kv.2.status)) =
      [("t1", .completed), ("t2", .completed), ("t3", .failed),
       ("t4", .completed), ("t5", .completed)] ∧
    (run_tasks_async 30000000 exOracle9 exTasks5
        (exInitCtx 5)).state.task_results.map
          (fun kv => (kv.1, kv.2.error_message)) =
      [("t1", none), ("t2", none), ("t3", some "provider error"),
       ("t4", none), ("t5", none)] := by
  obtain ⟨h1, _, _, _, h5, _⟩ :=
    run_tasks_async_spec cost_cap oracle tasks ctx hN hdisj
  refine ⟨h5, ?_, ?_, by decide, by decide, by decide, by decide⟩
  · intro task ht msg horacle
    refine ⟨process_task task (oracle task), ?_, ?_, ?_⟩
    · rw [h1]
      exact List.mem_append_right _
        (List.mem_map_of_mem (fun t => (t.task_id, process_task t (oracle t))) ht)
    · rw [horacle]
      rfl
    · rw [horacle]
      rfl
  · intro task ht outs costs horacle
    refine ⟨process_task task (oracle task), ?_, ?_⟩
    · rw [h1]
      exact List.mem_append_right _
        (List.mem_map_of_mem (fun t => (t.task_id, process_task t (oracle t))) ht)
    · rw [horacle]
      rfl

/-- C9 witness: the 5-task scenario run processes all five tasks and
records task 3 as Failed with its message. -/
theorem C9_failure_isolation_witness :
    (run_tasks_async 30000000 exOracle9 exTasks5 (exInitCtx 5)).processed =
      (exInitCtx 5).processed ++ exTasks5.map VariantTask.task_id :=
  (C9_failure_isolation 30000000 exOracle9 exTasks5 (exInitCtx 5)
    (by decide) (by decide)).1

/-! ## Theorems — RunState serialization -/

theorem TaskStatus.ofValue_value (s : TaskStatus) :
    TaskStatus.ofValue s.value = some s := by
  cases s <;> rfl

theorem deserialize_serialize (r : TaskResult) :
    TaskResultData.deserialize r.serialize =
      some { r with video_outputs := none } := by
  unfold TaskResultData.deserialize TaskResult.serialize
  dsimp only
  rw [TaskStatus.ofValue_value]
  rfl

theorem fromDictStep_fold (trs : List (String × TaskResult))
    (acc : RunState) :
    (trs.map (fun kv => (kv.1, kv.2.serialize))).foldl fromDictStep
        (some acc) =
      some { acc with
        task_results := acc.task_results ++
          trs.map (fun kv =>
            (kv.1, { kv.2 with video_outputs := none })) } := by
  induction trs generalizing acc with
  | nil => simp
  | cons kv rest ih =>
      rw [List.map_cons, List.foldl_cons]
      have hstep : fromDictStep (some acc) (kv.1, kv.2.serialize) =
          some { acc with
            task_results := acc.task_results ++
              [(kv.1, { kv.2 with video_outputs := none })] } := by
        unfold fromDictStep
        dsimp only
        rw [deserialize_serialize]
        rfl
      rw [hstep, ih]
      simp [List.append_assoc]

theorem strip_map_eq_self (l : List (String × TaskResult))
    (h : ∀ kv ∈ l, kv.2.video_outputs = none) :
    l.map (fun kv => (kv.1, { kv.2 with video_outputs := none })) = l := by
  induction l with
  | nil => rfl
  | cons kv rest ih =>
      rw [List.map_cons, ih (fun x hx => h x (List.mem_cons_of_mem kv hx))]
      have hkv := h kv (List.mem_cons_self kv rest)
      obtain ⟨k, r⟩ := kv
      obtain ⟨tid, st, t0, t1, em, outs, vo, cs⟩ := r
      simp only at hkv
      subst hkv
      rfl

/-- C10 (implicit): the `to_dict`/`from_dict` round trip (the content of a
`save` + `load` cycle) returns exactly the original `RunState` except
that every task result's `video_outputs` field comes back `None`
(`to_dict` does not serialize it); in particular the round trip is the
identity precisely on states whose results all have `video_outputs =
None`, and a non-`None` `video_outputs` is lost across a
checkpoint/resume cycle. -/
theorem C10_roundtrip (s : RunState) :
    RunState.from_dict s.to_dict = some (stripVideoOutputs s) ∧
    ((∀ kv ∈ s.task_results, kv.2.video_outputs = none) →
      RunState.from_dict s.to_dict = some s) := by
  have h : RunState.from_dict s.to_dict = some (stripVideoOutputs s) := by
    unfold RunState.from_dict RunState.to_dict
    dsimp only
    rw [fromDictStep_fold]
    simp [stripVideoOutputs]
  refine ⟨h, fun hall => ?_⟩
  rw [h]
  unfold stripVideoOutputs
  rw [strip_map_eq_self s.task_results hall]

/-- C10 witness: the round trip is the identity on a concrete state whose
single result carries no video outputs. -/
theorem C10_roundtrip_witness :
    RunState.from_dict exRunState.to_dict = some exRunState :=
  (C10_roundtrip exRunState).2 (by decide)
